import Mathlib

/-!
# cortex-tenant: configuration loading (`config.go`)

A shallow embedding of `configLoad` from `config.go` and the properties of the
configuration it returns.

Modelling conventions

* Go `string` is `String`, `[]string` is `List String` (`len(l) == 0` covers the
  nil and the empty slice alike), `bool` is `Bool`.
* Go `int` and `time.Duration` (an `int64` count of nanoseconds) are `Int`. The
  function only compares them with `0` and stores constants, so no arithmetic
  can overflow; `10 * time.Second` is `10000000000`.
* A Go `error` coming out of a library is represented by its message, a
  `String`. `errors.Wrap(err, msg)` is `LoadError.wrap msg err` and
  `fmt.Errorf(msg)` is `LoadError.errorf msg`.
* The result `(*config, error)` is `Except LoadError config`: either the
  error (and a nil configuration) or the configuration (and a nil error).
* The library calls `os.ReadFile`, `os.Stat`, `yaml.UnmarshalStrict` and
  `env.Parse` are not part of `config.go`; they are the fields of `World`,
  so that every theorem holds for whatever they do.
-/

namespace CortexTenant

/-- The Go type `time.Duration`: a signed count of nanoseconds. -/
abbrev Duration := Int

/-- The constant `time.Second`, in nanoseconds. -/
def Second : Duration := 1000000000

/-- The type `fasthttputil.InmemoryListener`; `configLoad` never creates one. -/
structure InmemoryListener where
  id : Nat
  deriving DecidableEq, Repr

/-- The anonymous struct of the field `Target` of `config` (config.go:20-26). -/
structure TargetConfig where
  Endpoint : String := ""
  CertFile : String := ""
  KeyFile : String := ""
  CAFile : String := ""
  InsecureSkipVerify : Bool := false
  deriving DecidableEq, Repr

/-- The anonymous struct of the field `Auth.Egress` of `config` (config.go:40-43). -/
structure EgressConfig where
  Username : String := ""
  Password : String := ""
  deriving DecidableEq, Repr

/-- The anonymous struct of the field `Auth` of `config` (config.go:39-44). -/
structure AuthConfig where
  Egress : EgressConfig := {}
  deriving DecidableEq, Repr

/-- The anonymous struct of the field `Tenant` of `config` (config.go:46-55). -/
structure TenantConfig where
  Label : String := ""
  LabelList : List String := []
  Prefix : String := ""
  PrefixPreferSource : Bool := false
  LabelRemove : Bool := false
  Header : String := ""
  Default : String := ""
  AcceptAll : Bool := false
  deriving DecidableEq, Repr

/-- The struct `config` (config.go:14-59). Every field defaults to the zero
value of its Go type, so `{}` is the value of `&config{}`. -/
structure config where
  Listen : String := ""
  ListenPprof : String := ""
  ListenMetricsAddress : String := ""
  MetricsIncludeTenant : Bool := false
  Target : TargetConfig := {}
  EnableIPv6 : Bool := false
  LogLevel : String := ""
  Timeout : Duration := 0
  TimeoutShutdown : Duration := 0
  Concurrency : Int := 0
  Metadata : Bool := false
  LogResponseErrors : Bool := false
  MaxConnDuration : Duration := 0
  MaxConnsPerHost : Int := 0
  Auth : AuthConfig := {}
  Tenant : TenantConfig := {}
  pipeIn : Option InmemoryListener := none
  pipeOut : Option InmemoryListener := none
  deriving DecidableEq, Repr

/-- The errors `configLoad` returns: `errors.Wrap(err, msg)` around a library
error, or `fmt.Errorf(msg)`. -/
inductive LoadError where
  | wrap (msg : String) (cause : String)
  | errorf (msg : String)
  deriving DecidableEq, Repr

/-- The library calls made by `configLoad`, with the state they read.

* `readFile p` is `os.ReadFile(p)`: the content or the error.
* `stat p` is the error of `os.Stat(p)`: `none` when the path exists (nil
  error), `some e` when the call fails.
* `unmarshalStrict y cfg` is `yaml.UnmarshalStrict(y, cfg)`: the updated
  configuration or the error.
* `envParse cfg` is `env.Parse(cfg)` under the process environment: the
  updated configuration or the error. -/
structure World where
  readFile : String → Except String String
  stat : String → Option String
  unmarshalStrict : String → config → Except String config
  envParse : config → Except String config

/-- The file and environment stages of `configLoad` (config.go:62-77): the
configuration after `env.Parse`, called the merged configuration. -/
def configMerge (w : World) (file : String) : Except LoadError config := do
  let mut cfg : config := {}
  if file ≠ "" then
    match w.readFile file with
    | .error err => throw (LoadError.wrap "Unable to read config" err)
    | .ok y =>
      match w.unmarshalStrict y cfg with
      | .error err => throw (LoadError.wrap "Unable to parse config" err)
      | .ok c => cfg := c
  match w.envParse cfg with
  | .error err => throw (LoadError.wrap "Unable to parse env vars" err)
  | .ok c => cfg := c
  return cfg

/-- The defaulting and validation statements of `configLoad`
(config.go:79-151), in source order, on the merged configuration `merged`;
`stat` is `os.Stat`. A Go statement `if c { cfg.F = v }` is the rebinding
`let cfg := if c then { cfg with F := v } else cfg`, and a `return nil, err`
is a `throw`. -/
def configResolve (stat : String → Option String) (merged : config) :
    Except LoadError config := do
  let cfg := merged
  let cfg := if cfg.Listen = "" then { cfg with Listen := "127.0.0.1:8081" } else cfg
  let cfg := if cfg.ListenMetricsAddress = "" then
    { cfg with ListenMetricsAddress := "0.0.0.0:9090" } else cfg
  let cfg := if cfg.LogLevel = "" then { cfg with LogLevel := "warn" } else cfg
  let cfg := if cfg.Target.Endpoint = "" then
    { cfg with Target := { cfg.Target with Endpoint := "127.0.0.1:9090" } } else cfg
  if cfg.Target.CertFile ≠ "" then
    match stat cfg.Target.CertFile with
    | some err => throw (LoadError.wrap "Unable to find cert file" err)
    | none => pure ()
  if cfg.Target.KeyFile ≠ "" then
    match stat cfg.Target.KeyFile with
    | some err => throw (LoadError.wrap "Unable to find key file" err)
    | none => pure ()
  if cfg.Target.CAFile ≠ "" then
    match stat cfg.Target.CAFile with
    | some err => throw (LoadError.wrap "Unable to find CA file" err)
    | none => pure ()
  let cfg := if cfg.Target.InsecureSkipVerify then
    { cfg with Target := { cfg.Target with InsecureSkipVerify := false } } else cfg
  let cfg := if cfg.Timeout = 0 then { cfg with Timeout := 10 * Second } else cfg
  let cfg := if cfg.Concurrency = 0 then { cfg with Concurrency := 512 } else cfg
  let cfg := if cfg.Tenant.Header = "" then
    { cfg with Tenant := { cfg.Tenant with Header := "X-Scope-OrgID" } } else cfg
  let cfg := if cfg.Tenant.Label = "" then
    { cfg with Tenant := { cfg.Tenant with Label := "__tenant__" } } else cfg
  -- Default to the Label if list is empty
  let cfg := if cfg.Tenant.LabelList.length = 0 then
    { cfg with Tenant :=
      { cfg.Tenant with LabelList := cfg.Tenant.LabelList ++ [cfg.Tenant.Label] } }
    else cfg
  if cfg.Auth.Egress.Username ≠ "" then
    if cfg.Auth.Egress.Password = "" then
      throw (LoadError.errorf "egress auth user specified, but the password is not")
  let cfg := if cfg.MaxConnsPerHost = 0 then { cfg with MaxConnsPerHost := 64 } else cfg
  return cfg

/-- The function `configLoad` (config.go:61-152): the file and environment
stages, then the defaulting and validation statements. -/
def configLoad (w : World) (file : String) : Except LoadError config :=
  configMerge w file >>= configResolve w.stat

/-- The first validation of `configResolve` that fails, in source order: the
three `os.Stat` checks, then the egress credentials; `none` when all pass.
None of the fields it reads is changed by a defaulting statement. -/
def firstFailure (stat : String → Option String) (m : config) : Option LoadError :=
  match (if m.Target.CertFile ≠ "" then stat m.Target.CertFile else none) with
  | some err => some (LoadError.wrap "Unable to find cert file" err)
  | none =>
    match (if m.Target.KeyFile ≠ "" then stat m.Target.KeyFile else none) with
    | some err => some (LoadError.wrap "Unable to find key file" err)
    | none =>
      match (if m.Target.CAFile ≠ "" then stat m.Target.CAFile else none) with
      | some err => some (LoadError.wrap "Unable to find CA file" err)
      | none =>
        if m.Auth.Egress.Username ≠ "" ∧ m.Auth.Egress.Password = "" then
          some (LoadError.errorf "egress auth user specified, but the password is not")
        else none

/-- The configuration `configResolve` returns when no validation fails, field
by field. -/
def withDefaults (m : config) : config :=
  { m with
    Listen := if m.Listen = "" then "127.0.0.1:8081" else m.Listen
    ListenMetricsAddress :=
      if m.ListenMetricsAddress = "" then "0.0.0.0:9090" else m.ListenMetricsAddress
    LogLevel := if m.LogLevel = "" then "warn" else m.LogLevel
    Target := { m.Target with
      Endpoint := if m.Target.Endpoint = "" then "127.0.0.1:9090" else m.Target.Endpoint
      InsecureSkipVerify := false }
    Timeout := if m.Timeout = 0 then 10 * Second else m.Timeout
    Concurrency := if m.Concurrency = 0 then 512 else m.Concurrency
    MaxConnsPerHost := if m.MaxConnsPerHost = 0 then 64 else m.MaxConnsPerHost
    Tenant := { m.Tenant with
      Header := if m.Tenant.Header = "" then "X-Scope-OrgID" else m.Tenant.Header
      Label := if m.Tenant.Label = "" then "__tenant__" else m.Tenant.Label
      LabelList :=
        if m.Tenant.LabelList.length = 0 then
          m.Tenant.LabelList ++ [if m.Tenant.Label = "" then "__tenant__" else m.Tenant.Label]
        else m.Tenant.LabelList } }

/-- The error `configResolve` reports for a failed `os.Stat`: the path is
configured (non-empty), `os.Stat` fails on it with `err`, and the error is
`err` wrapped with the label of the path's kind. -/
def IsStatFailure (stat : String → Option String) (m : config) (e : LoadError) : Prop :=
  (∃ err, m.Target.CertFile ≠ "" ∧ stat m.Target.CertFile = some err ∧
    e = LoadError.wrap "Unable to find cert file" err) ∨
  (∃ err, m.Target.KeyFile ≠ "" ∧ stat m.Target.KeyFile = some err ∧
    e = LoadError.wrap "Unable to find key file" err) ∨
  (∃ err, m.Target.CAFile ≠ "" ∧ stat m.Target.CAFile = some err ∧
    e = LoadError.wrap "Unable to find CA file" err)

/-- A world for concrete runs: no configuration file can be read, exactly the
paths of `present` exist, and the environment stage produces `merged` (the
environment sets the fields of `merged` that are not zero). -/
def envWorld (merged : config) (present : List String) : World where
  readFile := fun p => .error ("open " ++ p ++ ": no such file or directory")
  stat := fun p =>
    if p ∈ present then none else some ("stat " ++ p ++ ": no such file or directory")
  unmarshalStrict := fun _ cfg => .ok cfg
  envParse := fun _ => .ok merged

/-- Merged configuration of `CT_TENANT_LABEL=team`. -/
def teamConfig : config := { Tenant := { Label := "team" } }

/-- Merged configuration of `CT_CONCURRENCY=-1`, `CT_TIMEOUT=-1ns`,
`CT_MAX_CONNS_PER_HOST=-1`. -/
def negativeConfig : config := { Concurrency := -1, Timeout := -1, MaxConnsPerHost := -1 }

/-- Merged configuration of `CT_CONCURRENCY=8`, `CT_TIMEOUT=-5s`. -/
def mixedSignConfig : config := { Concurrency := 8, Timeout := -5 * Second }

/-- Merged configuration of `CT_AUTH_EGRESS_USERNAME=alice` with no password. -/
def userOnlyConfig : config := { Auth := { Egress := { Username := "alice" } } }

/-- Merged configuration of `CT_TARGET_CERT_FILE=/etc/ssl/client.pem`. -/
def certConfig : config := { Target := { CertFile := "/etc/ssl/client.pem" } }

/-- Merged configuration with a certificate path and both egress credentials. -/
def certAuthConfig : config :=
  { Target := { CertFile := "/etc/ssl/client.pem" }
    Auth := { Egress := { Username := "alice", Password := "s3cret" } } }

/-- Merged configuration of `CT_LISTEN=0.0.0.0:8080`, `CT_LISTEN_PPROF=:7008`,
`CT_MAX_CONNS_PER_HOST=16`. -/
def listenConfig : config :=
  { Listen := "0.0.0.0:8080", ListenPprof := ":7008", MaxConnsPerHost := 16 }

/-- Merged configuration of `CT_TARGET_INSECURE_SKIP_VERIFY=true`. -/
def skipVerifyConfig : config := { Target := { InsecureSkipVerify := true } }

/-- The constant defaults of the Default stage, in the words of the
specification: each of listen, metrics listen, log level, target endpoint,
timeout, concurrency, tenant header, tenant label and max conns per host that
holds the zero value of its type is assigned its documented default. -/
def constantDefaults (m : config) : config :=
  { m with
    Listen := if m.Listen = "" then "127.0.0.1:8081" else m.Listen
    ListenMetricsAddress :=
      if m.ListenMetricsAddress = "" then "0.0.0.0:9090" else m.ListenMetricsAddress
    LogLevel := if m.LogLevel = "" then "warn" else m.LogLevel
    Target := { m.Target with
      Endpoint := if m.Target.Endpoint = "" then "127.0.0.1:9090" else m.Target.Endpoint }
    Timeout := if m.Timeout = 0 then 10 * Second else m.Timeout
    Concurrency := if m.Concurrency = 0 then 512 else m.Concurrency
    MaxConnsPerHost := if m.MaxConnsPerHost = 0 then 64 else m.MaxConnsPerHost
    Tenant := { m.Tenant with
      Header := if m.Tenant.Header = "" then "X-Scope-OrgID" else m.Tenant.Header
      Label := if m.Tenant.Label = "" then "__tenant__" else m.Tenant.Label } }

/-- The derived default of the Default stage, in the words of the
specification: the tenant label list, if empty, becomes the single-element list
containing the already-resolved tenant label. -/
def deriveLabelList (c : config) : config :=
  if c.Tenant.LabelList = [] then
    { c with Tenant := { c.Tenant with LabelList := [c.Tenant.Label] } }
  else c

/-- The skip-verify reset of the Default stage, in the words of the
specification: the insecure-skip-verify flag is reset to false
unconditionally. -/
def resetSkipVerify (c : config) : config :=
  { c with Target := { c.Target with InsecureSkipVerify := false } }

/-- The Default stage of the linear pipeline: the constant defaults, then the
label-list derivation, then the skip-verify reset. -/
def defaultStage (m : config) : config :=
  resetSkipVerify (deriveLabelList (constantDefaults m))

/-- The existence check of the Validate stage on one TLS path, in the words of
the specification: if the path is non-empty, stat the filesystem for it and
fail with the error labelled `label` if it is absent. -/
def validatePath (stat : String → Option String) (label path : String) :
    Except LoadError Unit :=
  if path = "" then .ok ()
  else
    match stat path with
    | some err => .error (LoadError.wrap label err)
    | none => .ok ()

/-- The Validate stage of the linear pipeline on a defaulted configuration:
cert, key and CA existence, then the egress credentials. -/
def validateStage (stat : String → Option String) (c : config) : Except LoadError Unit := do
  validatePath stat "Unable to find cert file" c.Target.CertFile
  validatePath stat "Unable to find key file" c.Target.KeyFile
  validatePath stat "Unable to find CA file" c.Target.CAFile
  if c.Auth.Egress.Username ≠ "" ∧ c.Auth.Egress.Password = "" then
    throw (LoadError.errorf "egress auth user specified, but the password is not")

/-- The strict linear pipeline Default → Validate → Done/Error of the
specification: default the merged configuration, validate the defaulted
configuration, and return it when validation passes and the validation error
otherwise. -/
def linearPipeline (stat : String → Option String) (m : config) : Except LoadError config :=
  match validateStage stat (defaultStage m) with
  | .error e => .error e
  | .ok () => .ok (defaultStage m)

/-- Merged configuration with a label list that does not contain the label:
`CT_TENANT_LABEL=team`, `CT_TENANT_LABEL_LIST=org,unit`, `CT_LISTEN_PPROF=:7008`. -/
def labelListConfig : config :=
  { ListenPprof := ":7008", Tenant := { Label := "team", LabelList := ["org", "unit"] } }

/-- Merged configuration in which the cert, key and CA paths are all set and
the egress username has no password. -/
def allInvalidConfig : config :=
  { Target := { CertFile := "/tls/cert.pem", KeyFile := "/tls/key.pem", CAFile := "/tls/ca.pem" }
    Auth := { Egress := { Username := "alice" } } }

/-- The process environment, as `os.LookupEnv` sees it: the text of a variable
that is set (possibly the empty text), `none` for a variable that is not set. -/
abbrev Environ := String → Option String

/-- The fields of `config` bound to an environment variable by an `env:"..."`
tag (config.go:15-54); the constructors are the field paths. -/
inductive EnvField where
  | Listen | ListenPprof | ListenMetricsAddress | MetricsIncludeTenant
  | TargetEndpoint | TargetCertFile | TargetKeyFile | TargetCAFile | TargetInsecureSkipVerify
  | EnableIPv6 | LogLevel | Timeout | TimeoutShutdown | Concurrency | Metadata
  | LogResponseErrors | MaxConnDuration | MaxConnsPerHost
  | AuthEgressUsername | AuthEgressPassword
  | TenantLabel | TenantLabelList | TenantPrefix | TenantPrefixPreferSource
  | TenantLabelRemove | TenantHeader | TenantDefault | TenantAcceptAll
  deriving DecidableEq, Repr

/-- The variable named by the `env` tag of a field (config.go:15-54). -/
def EnvField.envName : EnvField → String
  | .Listen => "CT_LISTEN"
  | .ListenPprof => "CT_LISTEN_PPROF"
  | .ListenMetricsAddress => "CT_LISTEN_METRICS_ADDRESS"
  | .MetricsIncludeTenant => "CT_METRICS_INCLUDE_TENANT"
  | .TargetEndpoint => "CT_TARGET_ENDPOINT"
  | .TargetCertFile => "CT_TARGET_CERT_FILE"
  | .TargetKeyFile => "CT_TARGET_KEY_FILE"
  | .TargetCAFile => "CT_TARGET_CA_FILE"
  | .TargetInsecureSkipVerify => "CT_TARGET_INSECURE_SKIP_VERIFY"
  | .EnableIPv6 => "CT_ENABLE_IPV6"
  | .LogLevel => "CT_LOG_LEVEL"
  | .Timeout => "CT_TIMEOUT"
  | .TimeoutShutdown => "CT_TIMEOUT_SHUTDOWN"
  | .Concurrency => "CT_CONCURRENCY"
  | .Metadata => "CT_METADATA"
  | .LogResponseErrors => "CT_LOG_RESPONSE_ERRORS"
  | .MaxConnDuration => "CT_MAX_CONN_DURATION"
  | .MaxConnsPerHost => "CT_MAX_CONNS_PER_HOST"
  | .AuthEgressUsername => "CT_AUTH_EGRESS_USERNAME"
  | .AuthEgressPassword => "CT_AUTH_EGRESS_PASSWORD"
  | .TenantLabel => "CT_TENANT_LABEL"
  | .TenantLabelList => "CT_TENANT_LABEL_LIST"
  | .TenantPrefix => "CT_TENANT_PREFIX"
  | .TenantPrefixPreferSource => "CT_TENANT_PREFIX_PREFER_SOURCE"
  | .TenantLabelRemove => "CT_TENANT_LABEL_REMOVE"
  | .TenantHeader => "CT_TENANT_HEADER"
  | .TenantDefault => "CT_TENANT_DEFAULT"
  | .TenantAcceptAll => "CT_TENANT_ACCEPT_ALL"

/-- Every field bound to a variable, in the order of the struct. -/
def EnvField.all : List EnvField :=
  [.Listen, .ListenPprof, .ListenMetricsAddress, .MetricsIncludeTenant,
   .TargetEndpoint, .TargetCertFile, .TargetKeyFile, .TargetCAFile, .TargetInsecureSkipVerify,
   .EnableIPv6, .LogLevel, .Timeout, .TimeoutShutdown, .Concurrency, .Metadata,
   .LogResponseErrors, .MaxConnDuration, .MaxConnsPerHost,
   .AuthEgressUsername, .AuthEgressPassword,
   .TenantLabel, .TenantLabelList, .TenantPrefix, .TenantPrefixPreferSource,
   .TenantLabelRemove, .TenantHeader, .TenantDefault, .TenantAcceptAll]

/-- A value of a field of `config`: a `string`, a `bool`, an `int` or
`time.Duration`, or a `[]string`. -/
inductive Value where
  | str (s : String)
  | bool (b : Bool)
  | int (i : Int)
  | strs (l : List String)
  deriving DecidableEq, Repr

/-- The value a configuration holds in a field. -/
def EnvField.get : EnvField → config → Value
  | .Listen, c => .str c.Listen
  | .ListenPprof, c => .str c.ListenPprof
  | .ListenMetricsAddress, c => .str c.ListenMetricsAddress
  | .MetricsIncludeTenant, c => .bool c.MetricsIncludeTenant
  | .TargetEndpoint, c => .str c.Target.Endpoint
  | .TargetCertFile, c => .str c.Target.CertFile
  | .TargetKeyFile, c => .str c.Target.KeyFile
  | .TargetCAFile, c => .str c.Target.CAFile
  | .TargetInsecureSkipVerify, c => .bool c.Target.InsecureSkipVerify
  | .EnableIPv6, c => .bool c.EnableIPv6
  | .LogLevel, c => .str c.LogLevel
  | .Timeout, c => .int c.Timeout
  | .TimeoutShutdown, c => .int c.TimeoutShutdown
  | .Concurrency, c => .int c.Concurrency
  | .Metadata, c => .bool c.Metadata
  | .LogResponseErrors, c => .bool c.LogResponseErrors
  | .MaxConnDuration, c => .int c.MaxConnDuration
  | .MaxConnsPerHost, c => .int c.MaxConnsPerHost
  | .AuthEgressUsername, c => .str c.Auth.Egress.Username
  | .AuthEgressPassword, c => .str c.Auth.Egress.Password
  | .TenantLabel, c => .str c.Tenant.Label
  | .TenantLabelList, c => .strs c.Tenant.LabelList
  | .TenantPrefix, c => .str c.Tenant.Prefix
  | .TenantPrefixPreferSource, c => .bool c.Tenant.PrefixPreferSource
  | .TenantLabelRemove, c => .bool c.Tenant.LabelRemove
  | .TenantHeader, c => .str c.Tenant.Header
  | .TenantDefault, c => .str c.Tenant.Default
  | .TenantAcceptAll, c => .bool c.Tenant.AcceptAll

/-- Overwriting a field with a value of the field's type; a value of another
type leaves the configuration unchanged. -/
def EnvField.set : EnvField → Value → config → config
  | .Listen, .str s, c => { c with Listen := s }
  | .ListenPprof, .str s, c => { c with ListenPprof := s }
  | .ListenMetricsAddress, .str s, c => { c with ListenMetricsAddress := s }
  | .MetricsIncludeTenant, .bool b, c => { c with MetricsIncludeTenant := b }
  | .TargetEndpoint, .str s, c => { c with Target := { c.Target with Endpoint := s } }
  | .TargetCertFile, .str s, c => { c with Target := { c.Target with CertFile := s } }
  | .TargetKeyFile, .str s, c => { c with Target := { c.Target with KeyFile := s } }
  | .TargetCAFile, .str s, c => { c with Target := { c.Target with CAFile := s } }
  | .TargetInsecureSkipVerify, .bool b, c =>
    { c with Target := { c.Target with InsecureSkipVerify := b } }
  | .EnableIPv6, .bool b, c => { c with EnableIPv6 := b }
  | .LogLevel, .str s, c => { c with LogLevel := s }
  | .Timeout, .int i, c => { c with Timeout := i }
  | .TimeoutShutdown, .int i, c => { c with TimeoutShutdown := i }
  | .Concurrency, .int i, c => { c with Concurrency := i }
  | .Metadata, .bool b, c => { c with Metadata := b }
  | .LogResponseErrors, .bool b, c => { c with LogResponseErrors := b }
  | .MaxConnDuration, .int i, c => { c with MaxConnDuration := i }
  | .MaxConnsPerHost, .int i, c => { c with MaxConnsPerHost := i }
  | .AuthEgressUsername, .str s, c =>
    { c with Auth := { c.Auth with Egress := { c.Auth.Egress with Username := s } } }
  | .AuthEgressPassword, .str s, c =>
    { c with Auth := { c.Auth with Egress := { c.Auth.Egress with Password := s } } }
  | .TenantLabel, .str s, c => { c with Tenant := { c.Tenant with Label := s } }
  | .TenantLabelList, .strs l, c => { c with Tenant := { c.Tenant with LabelList := l } }
  | .TenantPrefix, .str s, c => { c with Tenant := { c.Tenant with Prefix := s } }
  | .TenantPrefixPreferSource, .bool b, c =>
    { c with Tenant := { c.Tenant with PrefixPreferSource := b } }
  | .TenantLabelRemove, .bool b, c => { c with Tenant := { c.Tenant with LabelRemove := b } }
  | .TenantHeader, .str s, c => { c with Tenant := { c.Tenant with Header := s } }
  | .TenantDefault, .str s, c => { c with Tenant := { c.Tenant with Default := s } }
  | .TenantAcceptAll, .bool b, c => { c with Tenant := { c.Tenant with AcceptAll := b } }
  | _, _, c => c

/-- The conversions of a variable's text to a `bool`, an `int` and a
`time.Duration` (`strconv.ParseBool`, `strconv.ParseInt`, `time.ParseDuration`
in the library); `none` when the text cannot be converted. -/
structure Converters where
  parseBool : String → Option Bool
  parseInt : String → Option Int
  parseDuration : String → Option Duration

/-- Modelled from the spec: the type conversion of the environment overlay,
part of the library call `env.Parse` (github.com/caarlos0/env/v8), whose source
is not in the repository. The text of a variable is converted to the type of
its field; a list-typed field is split on the comma delimiter
(`envSeparator:","`, config.go:48). -/
def EnvField.convert (cv : Converters) : EnvField → String → Option Value
  | .MetricsIncludeTenant, raw | .TargetInsecureSkipVerify, raw | .EnableIPv6, raw
  | .Metadata, raw | .LogResponseErrors, raw | .TenantPrefixPreferSource, raw
  | .TenantLabelRemove, raw | .TenantAcceptAll, raw => (cv.parseBool raw).map Value.bool
  | .Timeout, raw | .TimeoutShutdown, raw | .MaxConnDuration, raw =>
    (cv.parseDuration raw).map Value.int
  | .Concurrency, raw | .MaxConnsPerHost, raw => (cv.parseInt raw).map Value.int
  | .TenantLabelList, raw => some (.strs (raw.splitOn ","))
  | _, raw => some (.str raw)

/-- Modelled from the spec: the environment overlay of one field, part of the
library call `env.Parse` (github.com/caarlos0/env/v8), whose source is not in
the repository. In the words of the specification, the value of a variable that
is set overwrites the field's current value (whether or not the file stage set
it), after type conversion, and the overlay fails if the value cannot be
converted to the field's type. The library writes a field only when the text it
looked up is not empty, so a variable set to the empty text is skipped like a
variable that is not set, and the field keeps its current value. -/
def envOverlayField (cv : Converters) (env : Environ) (cfg : config) (f : EnvField) :
    Except String config :=
  match env f.envName with
  | none => .ok cfg
  | some raw =>
    if raw = "" then .ok cfg
    else
      match f.convert cv raw with
      | none => .error ("env: parse error on field " ++ f.envName)
      | some v => .ok (f.set v cfg)

/-- Modelled from the spec: the environment overlay, the library call
`env.Parse` (github.com/caarlos0/env/v8), whose source is not in the
repository. In the words of the specification: the overlay of each schema field
that has an environment-variable binding, onto the structure the file stage
produced. -/
def envOverlay (cv : Converters) (env : Environ) (cfg : config) : Except String config :=
  EnvField.all.foldlM (envOverlayField cv env) cfg

/-- Conversions for concrete runs: the texts `strconv.ParseBool` accepts, a
decimal integer, and a decimal count of seconds followed by `s`. -/
def sampleConverters : Converters where
  parseBool := fun s =>
    if s ∈ ["1", "t", "T", "TRUE", "true", "True"] then some true
    else if s ∈ ["0", "f", "F", "FALSE", "false", "False"] then some false
    else none
  parseInt := fun s => s.toInt?
  parseDuration := fun s =>
    if s.endsWith "s" then (s.dropRight 1).toInt?.map (fun n => n * Second) else none

/-- A world with one configuration file: the file at `path` has the content
`content`, which strict decoding turns into `decoded`; no other file can be
read, `os.Stat` fails on every path, and the environment stage is `envStage`. -/
def fileWorld (path content : String) (decoded : Except String config)
    (envStage : config → Except String config) : World where
  readFile := fun p =>
    if p = path then .ok content else .error ("open " ++ p ++ ": no such file or directory")
  stat := fun p => some ("stat " ++ p ++ ": no such file or directory")
  unmarshalStrict := fun y _ => if y = content then decoded else .error "yaml: other document"
  envParse := envStage

/-- The environment in which only `CT_LISTEN` is set, to `127.0.0.1:9000`. -/
def listenEnviron : Environ := fun name =>
  if name = "CT_LISTEN" then some "127.0.0.1:9000" else none

/-- The environment in which only `CT_LISTEN` is set, to the empty text. -/
def emptyListenEnviron : Environ := fun name =>
  if name = "CT_LISTEN" then some "" else none

/-- The configuration decoded from the file content `listen: 0.0.0.0:8080`. -/
def fileListenConfig : config := { Listen := "0.0.0.0:8080" }

/-- Modelled from the spec: the strict structural decode, the library call
`yaml.UnmarshalStrict` (gopkg.in/yaml.v2), whose source is not in the
repository. In the words of the specification: decoding must reject any field
name not present in the schema, and fails on malformed syntax or unknown
fields. `keysOf y` are the keys that occur in the document `y`, `declared` are
the keys of the schema, and `decode` is the decoding of a document whose keys
are all declared (it fails on malformed syntax). -/
def strictDecode (keysOf : String → List String) (declared : List String)
    (decode : String → config → Except String config) (y : String) (cfg : config) :
    Except String config :=
  match (keysOf y).find? (fun k => !declared.contains k) with
  | some k => .error ("yaml: unmarshal errors: field " ++ k ++ " not found in type main.config")
  | none => decode y cfg

/-- The keys of the configuration document declared by the struct `config`
(config.go:15-54), as paths: the `yaml` tag of a field, or the lower-cased
field name for a field without a `yaml` tag. -/
def declaredKeys : List String :=
  ["listen", "listen_pprof", "listen_metrics_address", "metrics_include_tenant",
   "target", "target.endpoint", "target.cert_file", "target.key_file", "target.ca_file",
   "target.insecure_skip_verify",
   "enable_ipv6", "log_level", "timeout", "timeout_shutdown", "concurrency", "metadata",
   "log_response_errors", "max_connection_duration", "max_conns_per_host",
   "auth", "auth.egress", "auth.egress.username", "auth.egress.password",
   "tenant", "tenant.label", "tenant.label_list", "tenant.prefix",
   "tenant.prefix_prefer_source", "tenant.label_remove", "tenant.header", "tenant.default",
   "tenant.accept_all"]

/-- A world whose configuration file `/etc/cortex-tenant.yml` holds
`log_level: debug` and the misspelt key `listne`; the environment sets
nothing. -/
def typoWorld : World where
  readFile := fun p =>
    if p = "/etc/cortex-tenant.yml" then .ok "log_level: debug\nlistne: 0.0.0.0:8080"
    else .error ("open " ++ p ++ ": no such file or directory")
  stat := fun _ => none
  unmarshalStrict :=
    strictDecode
      (fun y => if y = "log_level: debug\nlistne: 0.0.0.0:8080" then ["log_level", "listne"] else [])
      declaredKeys (fun _ cfg => .ok { cfg with LogLevel := "debug" })
  envParse := fun cfg => .ok cfg

/-- A conditional between two `config` values is the `config` of the
field-wise conditionals. -/
theorem config_ite (c : Prop) [Decidable c] (x y : config) :
    (if c then x else y) =
      { Listen := if c then x.Listen else y.Listen
        ListenPprof := if c then x.ListenPprof else y.ListenPprof
        ListenMetricsAddress := if c then x.ListenMetricsAddress else y.ListenMetricsAddress
        MetricsIncludeTenant := if c then x.MetricsIncludeTenant else y.MetricsIncludeTenant
        Target :=
          { Endpoint := if c then x.Target.Endpoint else y.Target.Endpoint
            CertFile := if c then x.Target.CertFile else y.Target.CertFile
            KeyFile := if c then x.Target.KeyFile else y.Target.KeyFile
            CAFile := if c then x.Target.CAFile else y.Target.CAFile
            InsecureSkipVerify :=
              if c then x.Target.InsecureSkipVerify else y.Target.InsecureSkipVerify }
        EnableIPv6 := if c then x.EnableIPv6 else y.EnableIPv6
        LogLevel := if c then x.LogLevel else y.LogLevel
        Timeout := if c then x.Timeout else y.Timeout
        TimeoutShutdown := if c then x.TimeoutShutdown else y.TimeoutShutdown
        Concurrency := if c then x.Concurrency else y.Concurrency
        Metadata := if c then x.Metadata else y.Metadata
        LogResponseErrors := if c then x.LogResponseErrors else y.LogResponseErrors
        MaxConnDuration := if c then x.MaxConnDuration else y.MaxConnDuration
        MaxConnsPerHost := if c then x.MaxConnsPerHost else y.MaxConnsPerHost
        Auth := if c then x.Auth else y.Auth
        Tenant :=
          { Label := if c then x.Tenant.Label else y.Tenant.Label
            LabelList := if c then x.Tenant.LabelList else y.Tenant.LabelList
            Prefix := if c then x.Tenant.Prefix else y.Tenant.Prefix
            PrefixPreferSource :=
              if c then x.Tenant.PrefixPreferSource else y.Tenant.PrefixPreferSource
            LabelRemove := if c then x.Tenant.LabelRemove else y.Tenant.LabelRemove
            Header := if c then x.Tenant.Header else y.Tenant.Header
            Default := if c then x.Tenant.Default else y.Tenant.Default
            AcceptAll := if c then x.Tenant.AcceptAll else y.Tenant.AcceptAll }
        pipeIn := if c then x.pipeIn else y.pipeIn
        pipeOut := if c then x.pipeOut else y.pipeOut } := by
  split <;> rfl

theorem configResolve_eq (stat : String → Option String) (m : config) :
    configResolve stat m =
      match firstFailure stat m with
      | some e => .error e
      | none => .ok (withDefaults m) := by
  obtain ⟨R, hR⟩ : ∃ R, R = withDefaults m := ⟨_, rfl⟩
  rw [← hR]
  obtain ⟨f1, f2, f3, f4, ⟨t1, t2, t3, t4, t5⟩, f5, f6, f7, f8, f9, f10, f11, f12, f13, ⟨⟨a1, a2⟩⟩,
    ⟨n1, n2, n3, n4, n5, n6, n7, n8⟩, f14, f15⟩ := m
  have ht5 : (if t5 = true then false else t5) = false := by cases t5 <;> rfl
  simp only [withDefaults] at hR
  simp only [configResolve, firstFailure, config_ite, ite_self, ht5]
  simp only [← hR]
  clear hR ht5
  by_cases h2 : t2 = "" <;> by_cases h3 : t3 = "" <;> by_cases h4 : t4 = "" <;>
    by_cases h5 : a1 = "" <;> by_cases h6 : a2 = "" <;>
    cases hs2 : stat t2 <;> cases hs3 : stat t3 <;> cases hs4 : stat t4 <;>
    simp only [h2, h3, h4, h5, h6, ne_eq, not_true_eq_false, not_false_eq_true, if_true,
      if_false, and_self, and_true, and_false, true_and, false_and] <;> rfl

/-- Once the file and environment stages have produced `m`, `configLoad` is
`configResolve` on `m`. -/
theorem configLoad_of_merge {w : World} {file : String} {m : config}
    (hm : configMerge w file = .ok m) :
    configLoad w file = configResolve w.stat m := by
  simp only [configLoad, hm]
  rfl

/-- With no file and an environment stage that leaves the zero configuration
unchanged, the merged configuration is the zero configuration. -/
theorem configMerge_empty (w : World) (henv : w.envParse {} = .ok {}) :
    configMerge w "" = .ok {} := by
  simp only [configMerge, ne_eq, not_true_eq_false, if_false, henv]
  rfl

/-- A successful `configLoad` returns `withDefaults` of the merged
configuration, and no validation failed. -/
theorem configLoad_ok {w : World} {file : String} {m c : config}
    (hm : configMerge w file = .ok m) (hc : configLoad w file = .ok c) :
    firstFailure w.stat m = none ∧ c = withDefaults m := by
  rw [configLoad_of_merge hm, configResolve_eq] at hc
  cases hf : firstFailure w.stat m with
  | none =>
    rw [hf] at hc
    exact ⟨rfl, (Except.ok.inj hc).symm⟩
  | some e =>
    rw [hf] at hc
    exact absurd hc (by intro h; cases h)

/-- When a validation fails, `configLoad` returns the first failure. -/
theorem configLoad_error {w : World} {file : String} {m : config} {e : LoadError}
    (hm : configMerge w file = .ok m) (hf : firstFailure w.stat m = some e) :
    configLoad w file = .error e := by
  rw [configLoad_of_merge hm, configResolve_eq, hf]

/-- When no validation fails, `configLoad` returns `withDefaults` of the
merged configuration. -/
theorem configLoad_success {w : World} {file : String} {m : config}
    (hm : configMerge w file = .ok m) (hf : firstFailure w.stat m = none) :
    configLoad w file = .ok (withDefaults m) := by
  rw [configLoad_of_merge hm, configResolve_eq, hf]

/-- The zero configuration passes every validation, whatever the filesystem. -/
theorem firstFailure_zero (stat : String → Option String) :
    firstFailure stat {} = none := by
  simp [firstFailure]

/-- Claim C1: with an empty file path and an environment stage that leaves the
zero configuration unchanged (no variable set), the merged configuration is
the zero configuration and `configLoad` succeeds for every filesystem state,
returning the documented defaults. -/
theorem configLoad_no_file_no_env (w : World) (henv : w.envParse {} = .ok {}) :
    configMerge w "" = .ok {} ∧
    ∃ c, configLoad w "" = .ok c ∧
      c.Listen = "127.0.0.1:8081" ∧
      c.ListenMetricsAddress = "0.0.0.0:9090" ∧
      c.LogLevel = "warn" ∧
      c.Target.Endpoint = "127.0.0.1:9090" ∧
      c.Timeout = 10 * Second ∧
      c.Concurrency = 512 ∧
      c.Tenant.Header = "X-Scope-OrgID" ∧
      c.Tenant.Label = "__tenant__" ∧
      c.Tenant.LabelList = ["__tenant__"] ∧
      c.MaxConnsPerHost = 64 := by
  have hm := configMerge_empty w henv
  refine ⟨hm, withDefaults {}, configLoad_success hm (firstFailure_zero _), ?_⟩
  simp [withDefaults]

/-- Witness of C1: the world with no readable file, no existing path and an
environment that sets nothing. -/
theorem configLoad_no_file_no_env_witness :
    (envWorld {} []).envParse {} = .ok {} ∧
    (configMerge (envWorld {} []) "" = .ok {} ∧
    ∃ c, configLoad (envWorld {} []) "" = .ok c ∧
      c.Listen = "127.0.0.1:8081" ∧
      c.ListenMetricsAddress = "0.0.0.0:9090" ∧
      c.LogLevel = "warn" ∧
      c.Target.Endpoint = "127.0.0.1:9090" ∧
      c.Timeout = 10 * Second ∧
      c.Concurrency = 512 ∧
      c.Tenant.Header = "X-Scope-OrgID" ∧
      c.Tenant.Label = "__tenant__" ∧
      c.Tenant.LabelList = ["__tenant__"] ∧
      c.MaxConnsPerHost = 64) :=
  ⟨rfl, configLoad_no_file_no_env (envWorld {} []) rfl⟩

/-- Claim C2: when the merged `Tenant.LabelList` is empty and `configLoad`
succeeds, the resolved list is exactly `[resolved Tenant.Label]`, and the
resolved label is the merged label when that is non-empty and `__tenant__`
otherwise. -/
theorem labelList_defaults_to_label (w : World) (file : String) (m c : config)
    (hm : configMerge w file = .ok m) (hl : m.Tenant.LabelList = [])
    (hc : configLoad w file = .ok c) :
    c.Tenant.LabelList = [c.Tenant.Label] ∧
    (m.Tenant.Label ≠ "" → c.Tenant.Label = m.Tenant.Label) ∧
    (m.Tenant.Label = "" → c.Tenant.Label = "__tenant__") := by
  obtain ⟨-, rfl⟩ := configLoad_ok hm hc
  refine ⟨?_, ?_, ?_⟩
  · simp [withDefaults, hl]
  · intro h
    simp [withDefaults, h]
  · intro h
    simp [withDefaults, h]

/-- Witness of C2: `CT_TENANT_LABEL=team` and no label list gives `["team"]`. -/
theorem labelList_defaults_to_label_witness :
    configMerge (envWorld teamConfig []) "" = .ok teamConfig ∧
    teamConfig.Tenant.LabelList = [] ∧
    configLoad (envWorld teamConfig []) "" = .ok (withDefaults teamConfig) ∧
    (withDefaults teamConfig).Tenant.LabelList = ["team"] ∧
    (withDefaults teamConfig).Tenant.LabelList = [(withDefaults teamConfig).Tenant.Label] :=
  ⟨rfl, rfl, rfl, rfl,
    (labelList_defaults_to_label (envWorld teamConfig []) "" teamConfig
      (withDefaults teamConfig) rfl rfl rfl).1⟩

/-- Claim C3: the `Tenant.LabelList` of a configuration returned by
`configLoad` is never empty. -/
theorem labelList_nonempty (w : World) (file : String) (m c : config)
    (hm : configMerge w file = .ok m) (hc : configLoad w file = .ok c) :
    c.Tenant.LabelList ≠ [] := by
  obtain ⟨-, rfl⟩ := configLoad_ok hm hc
  simp only [withDefaults]
  split
  · simp
  · rename_i h
    intro h0
    exact h (by rw [h0]; rfl)

/-- Witness of C3: the zero merged configuration. -/
theorem labelList_nonempty_witness :
    configMerge (envWorld {} ["/tmp"]) "" = .ok {} ∧
    configLoad (envWorld {} ["/tmp"]) "" = .ok (withDefaults {}) ∧
    (withDefaults {}).Tenant.LabelList ≠ [] :=
  ⟨rfl, rfl, labelList_nonempty (envWorld {} ["/tmp"]) "" {} (withDefaults {}) rfl rfl⟩

/-- Replacing a zero integer by a positive default: the result is never zero,
it is positive exactly when the input is not negative, and a negative input is
kept. -/
theorem default_of_zero_int (x d : Int) (hd : 0 < d) :
    (if x = 0 then d else x) ≠ 0 ∧
    (0 < (if x = 0 then d else x) ↔ 0 ≤ x) ∧
    (x < 0 → (if x = 0 then d else x) = x) := by
  split <;> omega

/-- Counterexample to C4 as stated: `CT_CONCURRENCY=-1`, `CT_TIMEOUT=-1ns` and
`CT_MAX_CONNS_PER_HOST=-1` merge into `negativeConfig`, `configLoad` succeeds
and returns the three values unchanged, none of them greater than zero. -/
theorem positive_limits_counterexample :
    configMerge (envWorld negativeConfig []) "" = .ok negativeConfig ∧
    ∃ c, configLoad (envWorld negativeConfig []) "" = .ok c ∧
      c.Concurrency = -1 ∧ c.Timeout = -1 ∧ c.MaxConnsPerHost = -1 ∧
      ¬ (0 < c.Concurrency) ∧ ¬ (0 < c.Timeout) ∧ ¬ (0 < c.MaxConnsPerHost) :=
  ⟨rfl, withDefaults negativeConfig, rfl, rfl, rfl, rfl, by decide, by decide, by decide⟩

/-- Claim C4, amended: after a successful `configLoad` the resolved
`Concurrency`, `Timeout` and `MaxConnsPerHost` are never zero, and each is
strictly greater than zero exactly when its merged value is not negative; a
negative merged value is returned unchanged. -/
theorem limits_nonzero (w : World) (file : String) (m c : config)
    (hm : configMerge w file = .ok m) (hc : configLoad w file = .ok c) :
    (c.Concurrency ≠ 0 ∧ c.Timeout ≠ 0 ∧ c.MaxConnsPerHost ≠ 0) ∧
    ((0 < c.Concurrency ↔ 0 ≤ m.Concurrency) ∧ (0 < c.Timeout ↔ 0 ≤ m.Timeout) ∧
      (0 < c.MaxConnsPerHost ↔ 0 ≤ m.MaxConnsPerHost)) ∧
    ((m.Concurrency < 0 → c.Concurrency = m.Concurrency) ∧
      (m.Timeout < 0 → c.Timeout = m.Timeout) ∧
      (m.MaxConnsPerHost < 0 → c.MaxConnsPerHost = m.MaxConnsPerHost)) := by
  obtain ⟨-, rfl⟩ := configLoad_ok hm hc
  have k1 := default_of_zero_int m.Concurrency 512 (by decide)
  have k2 := default_of_zero_int m.Timeout (10 * Second) (by decide)
  have k3 := default_of_zero_int m.MaxConnsPerHost 64 (by decide)
  exact ⟨⟨k1.1, k2.1, k3.1⟩, ⟨k1.2.1, k2.2.1, k3.2.1⟩, ⟨k1.2.2, k2.2.2, k3.2.2⟩⟩

/-- Witness of the amended C4: `CT_CONCURRENCY=8` and `CT_TIMEOUT=-5s`. -/
theorem limits_nonzero_witness :
    configMerge (envWorld mixedSignConfig []) "" = .ok mixedSignConfig ∧
    configLoad (envWorld mixedSignConfig []) "" = .ok (withDefaults mixedSignConfig) ∧
    (withDefaults mixedSignConfig).Concurrency ≠ 0 ∧
    (withDefaults mixedSignConfig).Timeout ≠ 0 ∧
    (withDefaults mixedSignConfig).MaxConnsPerHost ≠ 0 :=
  ⟨rfl, rfl,
    (limits_nonzero (envWorld mixedSignConfig []) "" mixedSignConfig
      (withDefaults mixedSignConfig) rfl rfl).1⟩

/-- Counterexample to C5 as stated: with no file and nothing set in the
environment `configLoad` succeeds and the resolved `ListenPprof` is empty. -/
theorem addresses_nonempty_counterexample :
    configMerge (envWorld {} []) "" = .ok {} ∧
    ∃ c, configLoad (envWorld {} []) "" = .ok c ∧ c.ListenPprof = "" :=
  ⟨rfl, withDefaults {}, rfl, rfl⟩

/-- Claim C5, amended: after a successful `configLoad` the addresses `Listen`,
`ListenMetricsAddress` and `Target.Endpoint` are non-empty; `ListenPprof` has no
default and is returned as merged, so it is empty exactly when the merged value
is empty. -/
theorem defaulted_addresses_nonempty (w : World) (file : String) (m c : config)
    (hm : configMerge w file = .ok m) (hc : configLoad w file = .ok c) :
    c.Listen ≠ "" ∧ c.ListenMetricsAddress ≠ "" ∧ c.Target.Endpoint ≠ "" ∧
    c.ListenPprof = m.ListenPprof := by
  obtain ⟨-, rfl⟩ := configLoad_ok hm hc
  simp only [withDefaults]
  refine ⟨?_, ?_, ?_, trivial⟩ <;> split <;> first | assumption | decide

/-- Witness of the amended C5: `CT_LISTEN=0.0.0.0:8080`, `CT_LISTEN_PPROF=:7008`. -/
theorem defaulted_addresses_nonempty_witness :
    configMerge (envWorld listenConfig []) "" = .ok listenConfig ∧
    configLoad (envWorld listenConfig []) "" = .ok (withDefaults listenConfig) ∧
    (withDefaults listenConfig).Listen ≠ "" ∧
    (withDefaults listenConfig).ListenMetricsAddress ≠ "" ∧
    (withDefaults listenConfig).Target.Endpoint ≠ "" ∧
    (withDefaults listenConfig).ListenPprof = listenConfig.ListenPprof :=
  ⟨rfl, rfl,
    defaulted_addresses_nonempty (envWorld listenConfig []) "" listenConfig
      (withDefaults listenConfig) rfl rfl⟩

/-- A merged configuration with an egress username and no password fails a
validation, whatever the filesystem. -/
theorem firstFailure_user_without_password (stat : String → Option String) (m : config)
    (hu : m.Auth.Egress.Username ≠ "") (hp : m.Auth.Egress.Password = "") :
    ∃ e, firstFailure stat m = some e := by
  simp only [firstFailure]
  split
  · exact ⟨_, rfl⟩
  · split
    · exact ⟨_, rfl⟩
    · split
      · exact ⟨_, rfl⟩
      · rw [if_pos ⟨hu, hp⟩]
        exact ⟨_, rfl⟩

/-- When no validation fails, the egress username is empty or the password is
not. -/
theorem firstFailure_none_credentials (stat : String → Option String) (m : config)
    (hf : firstFailure stat m = none) (hu : m.Auth.Egress.Username ≠ "") :
    m.Auth.Egress.Password ≠ "" := by
  intro hp
  obtain ⟨e, he⟩ := firstFailure_user_without_password stat m hu hp
  rw [hf] at he
  cases he

/-- Claim C6: a merged configuration with a non-empty `Auth.Egress.Username`
and an empty `Auth.Egress.Password` makes `configLoad` return an error and no
configuration, whatever the other fields and the filesystem are; and every
configuration `configLoad` returns has a non-empty password when its username
is non-empty. -/
theorem egress_user_requires_password (w : World) (file : String) (m : config)
    (hm : configMerge w file = .ok m) :
    (m.Auth.Egress.Username ≠ "" → m.Auth.Egress.Password = "" →
      ∃ e, configLoad w file = .error e) ∧
    (∀ c, configLoad w file = .ok c →
      c.Auth.Egress.Username ≠ "" → c.Auth.Egress.Password ≠ "") := by
  constructor
  · intro hu hp
    obtain ⟨e, he⟩ := firstFailure_user_without_password w.stat m hu hp
    exact ⟨e, configLoad_error hm he⟩
  · intro c hc hu
    obtain ⟨hf, rfl⟩ := configLoad_ok hm hc
    exact firstFailure_none_credentials w.stat m hf hu

/-- Witness of C6: `CT_AUTH_EGRESS_USERNAME=alice` without a password is
rejected with the credentials error. -/
theorem egress_user_requires_password_witness :
    configMerge (envWorld userOnlyConfig []) "" = .ok userOnlyConfig ∧
    userOnlyConfig.Auth.Egress.Username ≠ "" ∧
    userOnlyConfig.Auth.Egress.Password = "" ∧
    configLoad (envWorld userOnlyConfig []) "" =
      .error (LoadError.errorf "egress auth user specified, but the password is not") ∧
    ∃ e, configLoad (envWorld userOnlyConfig []) "" = .error e :=
  ⟨rfl, by decide, rfl, rfl,
    (egress_user_requires_password (envWorld userOnlyConfig []) "" userOnlyConfig rfl).1
      (by decide) rfl⟩

/-- The guarded `os.Stat` of a path reports nothing when the path is empty or
exists. -/
theorem guarded_stat_none (p : String) (o : Option String)
    (h : ¬ (p ≠ "" ∧ o ≠ none)) : (if p ≠ "" then o else none) = none := by
  by_cases hp : p = ""
  · simp [hp]
  · by_cases ho : o = none
    · simp [ho]
    · exact absurd ⟨hp, ho⟩ h

/-- The guarded `os.Stat` of a non-empty path reports the error of `os.Stat`. -/
theorem guarded_stat_some (p : String) (o : Option String) (h : p ≠ "" ∧ o ≠ none) :
    ∃ err, o = some err ∧ (if p ≠ "" then o else none) = some err := by
  obtain ⟨hp, ho⟩ := h
  cases o with
  | none => exact absurd rfl ho
  | some err => exact ⟨err, rfl, by simp [hp]⟩

/-- A configured path on which `os.Stat` fails makes the first failing
validation a stat failure. -/
theorem firstFailure_missing_path (stat : String → Option String) (m : config)
    (h : (m.Target.CertFile ≠ "" ∧ stat m.Target.CertFile ≠ none) ∨
      (m.Target.KeyFile ≠ "" ∧ stat m.Target.KeyFile ≠ none) ∨
      (m.Target.CAFile ≠ "" ∧ stat m.Target.CAFile ≠ none)) :
    ∃ e, firstFailure stat m = some e ∧ IsStatFailure stat m e := by
  unfold firstFailure IsStatFailure
  by_cases c1 : m.Target.CertFile ≠ "" ∧ stat m.Target.CertFile ≠ none
  · obtain ⟨e1, hs1, hg1⟩ := guarded_stat_some _ _ c1
    rw [hg1]
    exact ⟨_, rfl, Or.inl ⟨e1, c1.1, hs1, rfl⟩⟩
  · rw [guarded_stat_none _ _ c1]
    by_cases c2 : m.Target.KeyFile ≠ "" ∧ stat m.Target.KeyFile ≠ none
    · obtain ⟨e2, hs2, hg2⟩ := guarded_stat_some _ _ c2
      rw [hg2]
      exact ⟨_, rfl, Or.inr (Or.inl ⟨e2, c2.1, hs2, rfl⟩)⟩
    · rw [guarded_stat_none _ _ c2]
      have c3 : m.Target.CAFile ≠ "" ∧ stat m.Target.CAFile ≠ none := by
        rcases h with h | h | h
        · exact absurd h c1
        · exact absurd h c2
        · exact h
      obtain ⟨e3, hs3, hg3⟩ := guarded_stat_some _ _ c3
      rw [hg3]
      exact ⟨_, rfl, Or.inr (Or.inr ⟨e3, c3.1, hs3, rfl⟩)⟩

/-- When every configured path exists and the credentials are complete, no
validation fails. -/
theorem firstFailure_none_of_valid (stat : String → Option String) (m : config)
    (h1 : m.Target.CertFile ≠ "" → stat m.Target.CertFile = none)
    (h2 : m.Target.KeyFile ≠ "" → stat m.Target.KeyFile = none)
    (h3 : m.Target.CAFile ≠ "" → stat m.Target.CAFile = none)
    (h4 : m.Auth.Egress.Username = "" ∨ m.Auth.Egress.Password ≠ "") :
    firstFailure stat m = none := by
  unfold firstFailure
  rw [guarded_stat_none _ _ (fun h => h.2 (h1 h.1)), guarded_stat_none _ _ (fun h => h.2 (h2 h.1)),
    guarded_stat_none _ _ (fun h => h.2 (h3 h.1))]
  have h5 : ¬ (m.Auth.Egress.Username ≠ "" ∧ m.Auth.Egress.Password = "") := by
    rintro ⟨hu, hp⟩
    rcases h4 with h | h
    · exact hu h
    · exact h hp
  simp only [h5, if_false]

/-- Claim C7: when at least one of `Target.CertFile`, `Target.KeyFile`,
`Target.CAFile` of the merged configuration is non-empty and `os.Stat` fails on
it, `configLoad` returns an error and no configuration, and the error is the
`os.Stat` failure of one of the configured paths, wrapped with the label of its
kind (cert file, key file or CA file). -/
theorem missing_tls_file_rejected (w : World) (file : String) (m : config)
    (hm : configMerge w file = .ok m)
    (h : (m.Target.CertFile ≠ "" ∧ w.stat m.Target.CertFile ≠ none) ∨
      (m.Target.KeyFile ≠ "" ∧ w.stat m.Target.KeyFile ≠ none) ∨
      (m.Target.CAFile ≠ "" ∧ w.stat m.Target.CAFile ≠ none)) :
    ∃ e, configLoad w file = .error e ∧ IsStatFailure w.stat m e := by
  obtain ⟨e, he, hs⟩ := firstFailure_missing_path w.stat m h
  exact ⟨e, configLoad_error hm he, hs⟩

/-- Witness of C7: `CT_TARGET_CERT_FILE=/etc/ssl/client.pem` on a filesystem
without that path. -/
theorem missing_tls_file_rejected_witness :
    configMerge (envWorld certConfig []) "" = .ok certConfig ∧
    (certConfig.Target.CertFile ≠ "" ∧
      (envWorld certConfig []).stat certConfig.Target.CertFile ≠ none) ∧
    configLoad (envWorld certConfig []) "" =
      .error (LoadError.wrap "Unable to find cert file"
        "stat /etc/ssl/client.pem: no such file or directory") ∧
    ∃ e, configLoad (envWorld certConfig []) "" = .error e ∧
      IsStatFailure (envWorld certConfig []).stat certConfig e :=
  ⟨rfl, ⟨by decide, by decide⟩, rfl,
    missing_tls_file_rejected (envWorld certConfig []) "" certConfig rfl
      (Or.inl ⟨by decide, by decide⟩)⟩

/-- Claim C8: validation rejects nothing else. When every non-empty path among
`Target.CertFile`, `Target.KeyFile`, `Target.CAFile` of the merged
configuration exists and `Auth.Egress.Username` is empty or
`Auth.Egress.Password` is non-empty, `configLoad` succeeds and returns a
configuration. -/
theorem valid_config_accepted (w : World) (file : String) (m : config)
    (hm : configMerge w file = .ok m)
    (h1 : m.Target.CertFile ≠ "" → w.stat m.Target.CertFile = none)
    (h2 : m.Target.KeyFile ≠ "" → w.stat m.Target.KeyFile = none)
    (h3 : m.Target.CAFile ≠ "" → w.stat m.Target.CAFile = none)
    (h4 : m.Auth.Egress.Username = "" ∨ m.Auth.Egress.Password ≠ "") :
    ∃ c, configLoad w file = .ok c :=
  ⟨withDefaults m, configLoad_success hm (firstFailure_none_of_valid w.stat m h1 h2 h3 h4)⟩

/-- Witness of C8: an existing certificate path with both egress credentials
set. -/
theorem valid_config_accepted_witness :
    configMerge (envWorld certAuthConfig ["/etc/ssl/client.pem"]) "" = .ok certAuthConfig ∧
    certAuthConfig.Auth.Egress.Username ≠ "" ∧
    certAuthConfig.Auth.Egress.Password ≠ "" ∧
    ∃ c, configLoad (envWorld certAuthConfig ["/etc/ssl/client.pem"]) "" = .ok c :=
  ⟨rfl, by decide, by decide,
    valid_config_accepted (envWorld certAuthConfig ["/etc/ssl/client.pem"]) "" certAuthConfig rfl
      (fun _ => by decide) (fun h => absurd rfl h) (fun h => absurd rfl h)
      (Or.inr (by decide))⟩

/-- With no TLS path configured the validations do not consult `os.Stat`. -/
theorem firstFailure_no_tls_paths (stat : String → Option String) (m : config)
    (h1 : m.Target.CertFile = "") (h2 : m.Target.KeyFile = "") (h3 : m.Target.CAFile = "") :
    firstFailure stat m =
      if m.Auth.Egress.Username ≠ "" ∧ m.Auth.Egress.Password = "" then
        some (LoadError.errorf "egress auth user specified, but the password is not")
      else none := by
  unfold firstFailure
  rw [guarded_stat_none _ _ (fun h => h.1 h1), guarded_stat_none _ _ (fun h => h.1 h2),
    guarded_stat_none _ _ (fun h => h.1 h3)]

/-- Claim C9: when `Target.CertFile`, `Target.KeyFile` and `Target.CAFile` of
the merged configuration are all empty, the defaulting and validation stages
give the same outcome (the same error or the same configuration) under any two
filesystem states. -/
theorem no_tls_paths_ignores_filesystem (stat1 stat2 : String → Option String) (m : config)
    (h1 : m.Target.CertFile = "") (h2 : m.Target.KeyFile = "") (h3 : m.Target.CAFile = "") :
    configResolve stat1 m = configResolve stat2 m := by
  rw [configResolve_eq, configResolve_eq, firstFailure_no_tls_paths stat1 m h1 h2 h3,
    firstFailure_no_tls_paths stat2 m h1 h2 h3]

/-- Witness of C9: `CT_TENANT_LABEL=team` under a filesystem where every path
exists and under one where none does. -/
theorem no_tls_paths_ignores_filesystem_witness :
    teamConfig.Target.CertFile = "" ∧ teamConfig.Target.KeyFile = "" ∧
    teamConfig.Target.CAFile = "" ∧
    configResolve (fun _ => none) teamConfig =
      configResolve (fun p => some ("stat " ++ p ++ ": no such file or directory")) teamConfig :=
  ⟨rfl, rfl, rfl,
    no_tls_paths_ignores_filesystem (fun _ => none)
      (fun p => some ("stat " ++ p ++ ": no such file or directory")) teamConfig rfl rfl rfl⟩

/-- Claim C10: after a successful `configLoad`, each field with a documented
constant default (`Listen`, `ListenMetricsAddress`, `LogLevel`,
`Target.Endpoint`, `Timeout`, `Concurrency`, `Tenant.Header`, `Tenant.Label`,
`MaxConnsPerHost`) is its default when the merged value is the zero value of its
type, and the merged value otherwise. -/
theorem constant_defaults (w : World) (file : String) (m c : config)
    (hm : configMerge w file = .ok m) (hc : configLoad w file = .ok c) :
    c.Listen = (if m.Listen = "" then "127.0.0.1:8081" else m.Listen) ∧
    c.ListenMetricsAddress =
      (if m.ListenMetricsAddress = "" then "0.0.0.0:9090" else m.ListenMetricsAddress) ∧
    c.LogLevel = (if m.LogLevel = "" then "warn" else m.LogLevel) ∧
    c.Target.Endpoint =
      (if m.Target.Endpoint = "" then "127.0.0.1:9090" else m.Target.Endpoint) ∧
    c.Timeout = (if m.Timeout = 0 then 10 * Second else m.Timeout) ∧
    c.Concurrency = (if m.Concurrency = 0 then 512 else m.Concurrency) ∧
    c.Tenant.Header = (if m.Tenant.Header = "" then "X-Scope-OrgID" else m.Tenant.Header) ∧
    c.Tenant.Label = (if m.Tenant.Label = "" then "__tenant__" else m.Tenant.Label) ∧
    c.MaxConnsPerHost = (if m.MaxConnsPerHost = 0 then 64 else m.MaxConnsPerHost) := by
  obtain ⟨-, rfl⟩ := configLoad_ok hm hc
  exact ⟨rfl, rfl, rfl, rfl, rfl, rfl, rfl, rfl, rfl⟩

/-- Witness of C10: `CT_LISTEN=0.0.0.0:8080` and `CT_MAX_CONNS_PER_HOST=16` are
kept, the unset concurrency becomes 512. -/
theorem constant_defaults_witness :
    configMerge (envWorld listenConfig ["/etc"]) "" = .ok listenConfig ∧
    configLoad (envWorld listenConfig ["/etc"]) "" = .ok (withDefaults listenConfig) ∧
    (withDefaults listenConfig).Listen = "0.0.0.0:8080" ∧
    (withDefaults listenConfig).MaxConnsPerHost = 16 ∧
    (withDefaults listenConfig).Concurrency = 512 ∧
    (withDefaults listenConfig).Listen =
      (if listenConfig.Listen = "" then "127.0.0.1:8081" else listenConfig.Listen) :=
  ⟨rfl, rfl, rfl, rfl, rfl,
    (constant_defaults (envWorld listenConfig ["/etc"]) "" listenConfig
      (withDefaults listenConfig) rfl rfl).1⟩

/-- Claim C11: every configuration returned by `configLoad` has
`Target.InsecureSkipVerify` false, whatever the merged value was; a merged
`true` is reset. -/
theorem insecureSkipVerify_reset (w : World) (file : String) (m c : config)
    (hm : configMerge w file = .ok m) (hc : configLoad w file = .ok c) :
    c.Target.InsecureSkipVerify = false := by
  obtain ⟨-, rfl⟩ := configLoad_ok hm hc
  rfl

/-- Witness of C11: `CT_TARGET_INSECURE_SKIP_VERIFY=true` resolves to false. -/
theorem insecureSkipVerify_reset_witness :
    configMerge (envWorld skipVerifyConfig []) "" = .ok skipVerifyConfig ∧
    skipVerifyConfig.Target.InsecureSkipVerify = true ∧
    configLoad (envWorld skipVerifyConfig []) "" = .ok (withDefaults skipVerifyConfig) ∧
    (withDefaults skipVerifyConfig).Target.InsecureSkipVerify = false :=
  ⟨rfl, rfl, rfl,
    insecureSkipVerify_reset (envWorld skipVerifyConfig []) "" skipVerifyConfig
      (withDefaults skipVerifyConfig) rfl rfl⟩

/-- The Default stage of the linear pipeline computes `withDefaults`. -/
theorem defaultStage_eq (m : config) : defaultStage m = withDefaults m := by
  obtain ⟨f1, f2, f3, f4, ⟨t1, t2, t3, t4, t5⟩, f5, f6, f7, f8, f9, f10, f11, f12, f13, ⟨⟨a1, a2⟩⟩,
    ⟨n1, n2, n3, n4, n5, n6, n7, n8⟩, f14, f15⟩ := m
  cases n2 with
  | nil => simp [defaultStage, resetSkipVerify, deriveLabelList, constantDefaults, withDefaults]
  | cons x xs =>
    simp [defaultStage, resetSkipVerify, deriveLabelList, constantDefaults, withDefaults]

/-- The Validate stage fails exactly with the first failure of `configResolve`. -/
theorem validateStage_eq (stat : String → Option String) (m : config) :
    validateStage stat (withDefaults m) =
      match firstFailure stat m with
      | some e => .error e
      | none => .ok () := by
  obtain ⟨f1, f2, f3, f4, ⟨t1, t2, t3, t4, t5⟩, f5, f6, f7, f8, f9, f10, f11, f12, f13, ⟨⟨a1, a2⟩⟩,
    ⟨n1, n2, n3, n4, n5, n6, n7, n8⟩, f14, f15⟩ := m
  simp only [validateStage, validatePath, firstFailure, withDefaults]
  by_cases h2 : t2 = "" <;> by_cases h3 : t3 = "" <;> by_cases h4 : t4 = "" <;>
    by_cases h5 : a1 = "" <;> by_cases h6 : a2 = "" <;>
    cases hs2 : stat t2 <;> cases hs3 : stat t3 <;> cases hs4 : stat t4 <;>
    simp only [h2, h3, h4, h5, h6, ne_eq, not_true_eq_false, not_false_eq_true, if_true,
      if_false, and_self, and_true, and_false, true_and, false_and] <;> rfl

/-- Claim C12: the defaulting and validation statements of `configLoad`, which
are interleaved in the source, compute the strict linear pipeline (all defaults
first, then the validation of the defaulted configuration) on every merged
configuration and filesystem state; hence `configLoad` is the file and
environment stages followed by the linear pipeline. -/
theorem configLoad_is_linear_pipeline :
    (∀ (stat : String → Option String) (m : config),
      configResolve stat m = linearPipeline stat m) ∧
    (∀ (w : World) (file : String),
      configLoad w file = configMerge w file >>= linearPipeline w.stat) := by
  have h : ∀ (stat : String → Option String) (m : config),
      configResolve stat m = linearPipeline stat m := by
    intro stat m
    rw [configResolve_eq, linearPipeline, defaultStage_eq, validateStage_eq]
    cases firstFailure stat m <;> rfl
  refine ⟨h, ?_⟩
  intro w file
  have hf : configResolve w.stat = linearPipeline w.stat := funext (h w.stat)
  rw [configLoad, hf]
/-- Every field bound to a variable is in `EnvField.all`. -/
theorem EnvField.mem_all (f : EnvField) : f ∈ EnvField.all := by
  cases f <;> decide

/-- A converted value has the type of its field: writing it and reading the
field back gives the value. -/
theorem EnvField.get_set_convert (cv : Converters) (f : EnvField) (raw : String) (v : Value)
    (c : config) (h : f.convert cv raw = some v) : f.get (f.set v c) = v := by
  cases f <;> simp only [EnvField.convert, Option.map_eq_some', Option.some.injEq] at h <;>
    first
    | (subst h; rfl)
    | (obtain ⟨a, -, rfl⟩ := h; rfl)

/-- Writing a field leaves every other field as it was. -/
theorem EnvField.get_set_other (f g : EnvField) (v : Value) (c : config) (h : g ≠ f) :
    f.get (g.set v c) = f.get c := by
  cases f <;> cases g <;> first | exact absurd rfl h | (cases v <;> rfl)
/-- The overlay of a field whose variable is set to a non-empty convertible text
leaves the converted value in the field. -/
theorem envOverlayField_get_self (cv : Converters) (env : Environ) (f : EnvField)
    (raw : String) (v : Value) (c c1 : config)
    (hset : env f.envName = some raw) (hne : raw ≠ "") (hconv : f.convert cv raw = some v)
    (h : envOverlayField cv env c f = .ok c1) : f.get c1 = v := by
  simp only [envOverlayField, hset, hne, if_false, hconv] at h
  rw [← Except.ok.inj h]
  exact EnvField.get_set_convert cv f raw v c hconv

/-- The overlay of a field whose variable is set to the empty text changes
nothing. -/
theorem envOverlayField_skip (cv : Converters) (env : Environ) (f : EnvField) (c : config)
    (hset : env f.envName = some "") : envOverlayField cv env c f = .ok c := by
  simp only [envOverlayField, hset, if_true]

/-- The overlay of a field leaves every other field as it was. -/
theorem envOverlayField_get_other (cv : Converters) (env : Environ) (f g : EnvField)
    (c c1 : config) (hne : g ≠ f) (h : envOverlayField cv env c g = .ok c1) :
    f.get c1 = f.get c := by
  unfold envOverlayField at h
  cases he : env g.envName with
  | none =>
    rw [he] at h
    rw [← Except.ok.inj h]
  | some raw =>
    rw [he] at h
    by_cases hr : raw = ""
    · simp only [hr, if_true] at h
      rw [← Except.ok.inj h]
    · simp only [hr, if_false] at h
      cases hc : g.convert cv raw with
      | none =>
        simp only [hc] at h
        cases h
      | some v =>
        simp only [hc] at h
        rw [← Except.ok.inj h]
        exact EnvField.get_set_other f g v c hne

/-- Overlaying a list of fields leaves the converted value of a variable set to
a non-empty text in its field, when the field is in the list or already holds
that value. -/
theorem envOverlay_fold_get (cv : Converters) (env : Environ) (f : EnvField)
    (raw : String) (v : Value)
    (hset : env f.envName = some raw) (hne : raw ≠ "") (hconv : f.convert cv raw = some v) :
    ∀ (l : List EnvField) (c c1 : config),
      l.foldlM (envOverlayField cv env) c = .ok c1 → (f ∈ l ∨ f.get c = v) → f.get c1 = v := by
  intro l
  induction l with
  | nil =>
    intro c c1 h hin
    rcases hin with hin | hin
    · cases hin
    · have hc : c = c1 := Except.ok.inj h
      rw [← hc]
      exact hin
  | cons g t ih =>
    intro c c1 h hin
    rw [List.foldlM_cons] at h
    cases hg : envOverlayField cv env c g with
    | error e =>
      rw [hg] at h
      cases h
    | ok c2 =>
      rw [hg] at h
      have h2 : t.foldlM (envOverlayField cv env) c2 = .ok c1 := h
      by_cases hgf : g = f
      · subst hgf
        exact ih c2 c1 h2
          (Or.inr (envOverlayField_get_self cv env g raw v c c2 hset hne hconv hg))
      · rcases hin with hin | hin
        · rcases List.mem_cons.mp hin with hfg | hft
          · exact absurd hfg.symm hgf
          · exact ih c2 c1 h2 (Or.inl hft)
        · refine ih c2 c1 h2 (Or.inr ?_)
          rw [envOverlayField_get_other cv env f g c c2 hgf hg]
          exact hin

/-- Overlaying a list of fields leaves a field whose variable is set to the
empty text as it was. -/
theorem envOverlay_fold_keep (cv : Converters) (env : Environ) (f : EnvField)
    (hset : env f.envName = some "") :
    ∀ (l : List EnvField) (c c1 : config),
      l.foldlM (envOverlayField cv env) c = .ok c1 → f.get c1 = f.get c := by
  intro l
  induction l with
  | nil =>
    intro c c1 h
    have hc : c = c1 := Except.ok.inj h
    rw [hc]
  | cons g t ih =>
    intro c c1 h
    rw [List.foldlM_cons] at h
    cases hg : envOverlayField cv env c g with
    | error e =>
      rw [hg] at h
      cases h
    | ok c2 =>
      rw [hg] at h
      have h2 : t.foldlM (envOverlayField cv env) c2 = .ok c1 := h
      rw [ih c2 c1 h2]
      by_cases hgf : g = f
      · subst hgf
        rw [envOverlayField_skip cv env g c hset] at hg
        rw [← Except.ok.inj hg]
      · exact envOverlayField_get_other cv env f g c c2 hgf hg

/-- The merged configuration is the result of the environment stage. -/
theorem configMerge_envParse {w : World} {file : String} {m : config}
    (hm : configMerge w file = .ok m) : ∃ fc, w.envParse fc = .ok m := by
  unfold configMerge at hm
  by_cases hf : file = ""
  · simp only [hf, ne_eq, not_true_eq_false, if_false] at hm
    refine ⟨{}, ?_⟩
    cases he : w.envParse {} with
    | error e =>
      rw [he] at hm
      cases hm
    | ok c =>
      rw [he] at hm
      exact congrArg Except.ok (Except.ok.inj hm)
  · simp only [ne_eq, hf, not_false_eq_true, if_true] at hm
    cases hy : w.readFile file with
    | error e =>
      rw [hy] at hm
      cases hm
    | ok y =>
      rw [hy] at hm
      cases hu : w.unmarshalStrict y {} with
      | error e =>
        simp only [hu] at hm
        cases hm
      | ok fc =>
        simp only [hu] at hm
        refine ⟨fc, ?_⟩
        cases he : w.envParse fc with
        | error e =>
          rw [he] at hm
          cases hm
        | ok c =>
          rw [he] at hm
          exact congrArg Except.ok (Except.ok.inj hm)

/-- With a file that is read and decoded into `fc`, the merged configuration is
the result of the environment stage on `fc`. -/
theorem configMerge_of_file {w : World} {file y : String} {fc m : config}
    (hf : file ≠ "") (hy : w.readFile file = .ok y) (hu : w.unmarshalStrict y {} = .ok fc)
    (hm : configMerge w file = .ok m) : w.envParse fc = .ok m := by
  unfold configMerge at hm
  simp only [ne_eq, hf, not_false_eq_true, if_true, hy, hu] at hm
  cases he : w.envParse fc with
  | error e =>
    rw [he] at hm
    cases hm
  | ok c =>
    rw [he] at hm
    exact congrArg Except.ok (Except.ok.inj hm)

/-- With no file, the merged configuration is the result of the environment
stage on the zero configuration. -/
theorem configMerge_of_no_file {w : World} {m : config}
    (hm : configMerge w "" = .ok m) : w.envParse {} = .ok m := by
  unfold configMerge at hm
  simp only [ne_eq, not_true_eq_false, if_false] at hm
  cases he : w.envParse {} with
  | error e =>
    rw [he] at hm
    cases hm
  | ok c =>
    rw [he] at hm
    exact congrArg Except.ok (Except.ok.inj hm)

/-- Counterexample to C13 as stated: the file sets `listen: 0.0.0.0:8080` and
`CT_LISTEN` is set to the empty text, which converts to the empty string; after
the environment stage `Listen` is the file's value and not the converted
variable value. -/
theorem empty_env_value_counterexample :
    emptyListenEnviron EnvField.Listen.envName = some "" ∧
    EnvField.Listen.convert sampleConverters "" = some (Value.str "") ∧
    configMerge
        (fileWorld "/etc/cortex-tenant.yml" "listen: 0.0.0.0:8080" (.ok fileListenConfig)
          (envOverlay sampleConverters emptyListenEnviron))
        "/etc/cortex-tenant.yml" = .ok fileListenConfig ∧
    EnvField.Listen.get fileListenConfig = Value.str "0.0.0.0:8080" ∧
    EnvField.Listen.get fileListenConfig ≠ Value.str "" :=
  ⟨rfl, rfl, rfl, rfl, by decide⟩

/-- Claim C13, amended: a field whose variable is set to a non-empty text
convertible to the field's type holds the converted value after the
environment stage of `configLoad`, whatever the file provided for it; a
variable set to the empty text is skipped, and the field keeps the value of the
file stage (the zero value when there is no file). -/
theorem env_value_wins_unless_empty (w : World) (cv : Converters) (env : Environ)
    (file : String) (m : config) (f : EnvField) (raw : String)
    (hw : w.envParse = envOverlay cv env)
    (hm : configMerge w file = .ok m)
    (hset : env f.envName = some raw) :
    (raw ≠ "" → ∀ v, f.convert cv raw = some v → f.get m = v) ∧
    (raw = "" →
      (file = "" → f.get m = f.get {}) ∧
      (∀ y fc, file ≠ "" → w.readFile file = .ok y → w.unmarshalStrict y {} = .ok fc →
        f.get m = f.get fc)) := by
  refine ⟨?_, ?_⟩
  · intro hne v hconv
    obtain ⟨fc, hfc⟩ := configMerge_envParse hm
    rw [hw] at hfc
    exact envOverlay_fold_get cv env f raw v hset hne hconv EnvField.all fc m hfc
      (Or.inl (EnvField.mem_all f))
  · intro hr
    rw [hr] at hset
    refine ⟨?_, ?_⟩
    · intro hf
      rw [hf] at hm
      have he := configMerge_of_no_file hm
      rw [hw] at he
      exact envOverlay_fold_keep cv env f hset EnvField.all {} m he
    · intro y fc hf hy hu
      have he := configMerge_of_file hf hy hu hm
      rw [hw] at he
      exact envOverlay_fold_keep cv env f hset EnvField.all fc m he

/-- Witness of the amended C13: the file sets `listen: 0.0.0.0:8080`; with
`CT_LISTEN=127.0.0.1:9000` the merged `Listen` is the variable's value, and with
`CT_LISTEN` set to the empty text it is the file's value. -/
theorem env_value_wins_unless_empty_witness :
    configMerge
        (fileWorld "/etc/cortex-tenant.yml" "listen: 0.0.0.0:8080" (.ok fileListenConfig)
          (envOverlay sampleConverters listenEnviron))
        "/etc/cortex-tenant.yml" = .ok { Listen := "127.0.0.1:9000" } ∧
    configMerge
        (fileWorld "/etc/cortex-tenant.yml" "listen: 0.0.0.0:8080" (.ok fileListenConfig)
          (envOverlay sampleConverters emptyListenEnviron))
        "/etc/cortex-tenant.yml" = .ok fileListenConfig ∧
    EnvField.Listen.get { Listen := "127.0.0.1:9000" } = Value.str "127.0.0.1:9000" ∧
    EnvField.Listen.get fileListenConfig = Value.str "0.0.0.0:8080" :=
  ⟨rfl, rfl,
    (env_value_wins_unless_empty
      (fileWorld "/etc/cortex-tenant.yml" "listen: 0.0.0.0:8080" (.ok fileListenConfig)
        (envOverlay sampleConverters listenEnviron))
      sampleConverters listenEnviron "/etc/cortex-tenant.yml" { Listen := "127.0.0.1:9000" }
      EnvField.Listen "127.0.0.1:9000" rfl rfl rfl).1 (by decide)
      (Value.str "127.0.0.1:9000") rfl,
    ((env_value_wins_unless_empty
      (fileWorld "/etc/cortex-tenant.yml" "listen: 0.0.0.0:8080" (.ok fileListenConfig)
        (envOverlay sampleConverters emptyListenEnviron))
      sampleConverters emptyListenEnviron "/etc/cortex-tenant.yml" fileListenConfig
      EnvField.Listen "" rfl rfl rfl).2 rfl).2
      "listen: 0.0.0.0:8080" fileListenConfig (by decide) rfl rfl⟩

/-- A file that is read but fails strict decoding makes `configLoad` return the
decoding error wrapped as a parse error, before the environment is looked at. -/
theorem configMerge_decode_error (w : World) (file y err : String)
    (hf : file ≠ "") (hy : w.readFile file = .ok y)
    (hu : w.unmarshalStrict y {} = .error err) :
    configMerge w file = .error (LoadError.wrap "Unable to parse config" err) := by
  unfold configMerge
  simp only [ne_eq, hf, not_false_eq_true, if_true, hy, hu]
  rfl

/-- Strict decoding rejects a document that holds an undeclared key. -/
theorem strictDecode_unknown_key (keysOf : String → List String) (declared : List String)
    (decode : String → config → Except String config) (y k : String) (cfg : config)
    (hk : k ∈ keysOf y) (hd : k ∉ declared) :
    ∃ err, strictDecode keysOf declared decode y cfg = .error err := by
  unfold strictDecode
  cases hfind : (keysOf y).find? (fun k => !declared.contains k) with
  | some k1 => exact ⟨_, rfl⟩
  | none =>
    have h := List.find?_eq_none.mp hfind k hk
    simp only [List.contains_eq_any_beq, List.any_eq_true, beq_iff_eq, Bool.not_eq_true,
      Bool.not_eq_false', exists_eq_right, Bool.not_not] at h
    exact absurd h (by simpa using hd)

/-- Claim C15: when strict decoding is the decode of the specification, a
configuration file whose document holds a key that the schema does not declare
makes `configLoad` return a parse error (`Unable to parse config`) and no
configuration, whatever the rest of the document and the environment are. -/
theorem unknown_key_rejected (w : World) (keysOf : String → List String)
    (declared : List String) (decode : String → config → Except String config)
    (file y k : String)
    (hw : w.unmarshalStrict = strictDecode keysOf declared decode)
    (hf : file ≠ "") (hy : w.readFile file = .ok y)
    (hk : k ∈ keysOf y) (hd : k ∉ declared) :
    ∃ err, configLoad w file = .error (LoadError.wrap "Unable to parse config" err) := by
  obtain ⟨err, he⟩ := strictDecode_unknown_key keysOf declared decode y k {} hk hd
  rw [← hw] at he
  refine ⟨err, ?_⟩
  rw [configLoad, configMerge_decode_error w file y err hf hy he]
  rfl

/-- Witness of C15: the misspelt key `listne` next to a well-formed
`log_level: debug`. -/
theorem unknown_key_rejected_witness :
    configLoad typoWorld "/etc/cortex-tenant.yml" =
      .error (LoadError.wrap "Unable to parse config"
        "yaml: unmarshal errors: field listne not found in type main.config") ∧
    ∃ err, configLoad typoWorld "/etc/cortex-tenant.yml" =
      .error (LoadError.wrap "Unable to parse config" err) :=
  ⟨rfl,
    unknown_key_rejected typoWorld
      (fun y => if y = "log_level: debug\nlistne: 0.0.0.0:8080" then ["log_level", "listne"] else [])
      declaredKeys (fun _ cfg => .ok { cfg with LogLevel := "debug" })
      "/etc/cortex-tenant.yml" "log_level: debug\nlistne: 0.0.0.0:8080" "listne"
      rfl (by decide) rfl (by decide) (by decide)⟩
/-- Claim C16: `configLoad` reports the first failing validation in the fixed
order cert file, key file, CA file, egress credentials. A failing cert check is
reported whatever else fails; a key-file error is reported when the cert path is
empty or exists and only then; a CA-file error when the cert and key paths are
each empty or existing and only then; the credentials error when every
non-empty TLS path exists and only then. -/
theorem first_failure_is_reported (w : World) (file : String) (m : config)
    (hm : configMerge w file = .ok m) :
    (∀ err, m.Target.CertFile ≠ "" → w.stat m.Target.CertFile = some err →
      configLoad w file = .error (LoadError.wrap "Unable to find cert file" err)) ∧
    (∀ err, (m.Target.CertFile = "" ∨ w.stat m.Target.CertFile = none) →
      m.Target.KeyFile ≠ "" → w.stat m.Target.KeyFile = some err →
      configLoad w file = .error (LoadError.wrap "Unable to find key file" err)) ∧
    (∀ err, (m.Target.CertFile = "" ∨ w.stat m.Target.CertFile = none) →
      (m.Target.KeyFile = "" ∨ w.stat m.Target.KeyFile = none) →
      m.Target.CAFile ≠ "" → w.stat m.Target.CAFile = some err →
      configLoad w file = .error (LoadError.wrap "Unable to find CA file" err)) ∧
    ((m.Target.CertFile = "" ∨ w.stat m.Target.CertFile = none) →
      (m.Target.KeyFile = "" ∨ w.stat m.Target.KeyFile = none) →
      (m.Target.CAFile = "" ∨ w.stat m.Target.CAFile = none) →
      m.Auth.Egress.Username ≠ "" → m.Auth.Egress.Password = "" →
      configLoad w file =
        .error (LoadError.errorf "egress auth user specified, but the password is not")) ∧
    (∀ err, configLoad w file = .error (LoadError.wrap "Unable to find key file" err) →
      (m.Target.CertFile = "" ∨ w.stat m.Target.CertFile = none)) ∧
    (∀ err, configLoad w file = .error (LoadError.wrap "Unable to find CA file" err) →
      (m.Target.CertFile = "" ∨ w.stat m.Target.CertFile = none) ∧
      (m.Target.KeyFile = "" ∨ w.stat m.Target.KeyFile = none)) ∧
    (configLoad w file =
        .error (LoadError.errorf "egress auth user specified, but the password is not") →
      (m.Target.CertFile = "" ∨ w.stat m.Target.CertFile = none) ∧
      (m.Target.KeyFile = "" ∨ w.stat m.Target.KeyFile = none) ∧
      (m.Target.CAFile = "" ∨ w.stat m.Target.CAFile = none)) := by
  rw [configLoad_of_merge hm, configResolve_eq]
  unfold firstFailure
  by_cases h1 : m.Target.CertFile = "" <;> by_cases h2 : m.Target.KeyFile = "" <;>
    by_cases h3 : m.Target.CAFile = "" <;>
    cases hs1 : w.stat m.Target.CertFile <;> cases hs2 : w.stat m.Target.KeyFile <;>
    cases hs3 : w.stat m.Target.CAFile <;>
    by_cases h4 : m.Auth.Egress.Username = "" <;> by_cases h5 : m.Auth.Egress.Password = "" <;>
    simp [h1, h2, h3, h4, h5]
/-- Witness of C16: with the cert, key and CA paths all missing and no
password, the cert-file error is reported; once the cert file exists, the
key-file error is. -/
theorem first_failure_is_reported_witness :
    configMerge (envWorld allInvalidConfig []) "" = .ok allInvalidConfig ∧
    configLoad (envWorld allInvalidConfig []) "" =
      .error (LoadError.wrap "Unable to find cert file"
        "stat /tls/cert.pem: no such file or directory") ∧
    configLoad (envWorld allInvalidConfig ["/tls/cert.pem"]) "" =
      .error (LoadError.wrap "Unable to find key file"
        "stat /tls/key.pem: no such file or directory") :=
  ⟨rfl,
    (first_failure_is_reported (envWorld allInvalidConfig []) "" allInvalidConfig rfl).1
      _ (by decide) rfl,
    (first_failure_is_reported (envWorld allInvalidConfig ["/tls/cert.pem"]) ""
      allInvalidConfig rfl).2.1 _ (Or.inr (by decide)) (by decide) rfl⟩

/-- The defaults are idempotent: defaulting a defaulted configuration changes
nothing. -/
theorem withDefaults_idem (m : config) : withDefaults (withDefaults m) = withDefaults m := by
  obtain ⟨f1, f2, f3, f4, ⟨t1, t2, t3, t4, t5⟩, f5, f6, f7, f8, f9, f10, f11, f12, f13, ⟨⟨a1, a2⟩⟩,
    ⟨n1, n2, n3, n4, n5, n6, n7, n8⟩, f14, f15⟩ := m
  simp only [withDefaults, Second]
  have s : ∀ (x d : String), d ≠ "" →
      (if (if x = "" then d else x) = "" then d else (if x = "" then d else x)) =
        (if x = "" then d else x) := by
    intro x d hd
    by_cases hx : x = "" <;> simp [hx, hd]
  have i : ∀ (x d : Int), d ≠ 0 →
      (if (if x = 0 then d else x) = 0 then d else (if x = 0 then d else x)) =
        (if x = 0 then d else x) := by
    intro x d hd
    by_cases hx : x = 0 <;> simp [hx, hd]
  have l : ∀ (xs : List String) (y z : String),
      (if (if xs.length = 0 then xs ++ [y] else xs).length = 0 then
          (if xs.length = 0 then xs ++ [y] else xs) ++ [z]
        else (if xs.length = 0 then xs ++ [y] else xs)) =
        (if xs.length = 0 then xs ++ [y] else xs) := by
    intro xs y z
    cases xs <;> simp
  rw [s f1 _ (by decide), s f3 _ (by decide), s f6 _ (by decide), s t1 _ (by decide),
    s n6 _ (by decide), s n1 _ (by decide), i f7 _ (by decide), i f9 _ (by decide),
    i f13 _ (by decide), l]

/-- The validations read only fields that the defaults leave unchanged. -/
theorem firstFailure_withDefaults (stat : String → Option String) (m : config) :
    firstFailure stat (withDefaults m) = firstFailure stat m := rfl

/-- Claim C17: the defaulting-and-validation stage is idempotent: when it
succeeds on a merged configuration with result `c`, applying it to `c` under the
same filesystem state succeeds and returns `c` unchanged. -/
theorem configResolve_idempotent (stat : String → Option String) (m c : config)
    (hc : configResolve stat m = .ok c) :
    configResolve stat c = .ok c := by
  rw [configResolve_eq] at hc
  cases hf : firstFailure stat m with
  | some e =>
    rw [hf] at hc
    cases hc
  | none =>
    rw [hf] at hc
    have hcm : c = withDefaults m := (Except.ok.inj hc).symm
    rw [configResolve_eq, hcm, firstFailure_withDefaults, hf, withDefaults_idem]

/-- Witness of C17: the resolved configuration of `CT_TENANT_LABEL=team`. -/
theorem configResolve_idempotent_witness :
    configResolve (fun _ => none) teamConfig = .ok (withDefaults teamConfig) ∧
    configResolve (fun _ => none) (withDefaults teamConfig) = .ok (withDefaults teamConfig) :=
  ⟨rfl, configResolve_idempotent (fun _ => none) teamConfig (withDefaults teamConfig) rfl⟩
/-- Claim C18: a successful `configLoad` returns every field without a
defaulting statement exactly as merged (all of them except
`Target.InsecureSkipVerify`), and returns a non-empty merged `Tenant.LabelList`
unchanged, whether or not it contains `Tenant.Label`. -/
theorem undefaulted_fields_unchanged (w : World) (file : String) (m c : config)
    (hm : configMerge w file = .ok m) (hc : configLoad w file = .ok c) :
    (c.ListenPprof = m.ListenPprof ∧
      c.MetricsIncludeTenant = m.MetricsIncludeTenant ∧
      c.Target.CertFile = m.Target.CertFile ∧
      c.Target.KeyFile = m.Target.KeyFile ∧
      c.Target.CAFile = m.Target.CAFile ∧
      c.EnableIPv6 = m.EnableIPv6 ∧
      c.TimeoutShutdown = m.TimeoutShutdown ∧
      c.Metadata = m.Metadata ∧
      c.LogResponseErrors = m.LogResponseErrors ∧
      c.MaxConnDuration = m.MaxConnDuration ∧
      c.Auth.Egress.Username = m.Auth.Egress.Username ∧
      c.Auth.Egress.Password = m.Auth.Egress.Password ∧
      c.Tenant.Prefix = m.Tenant.Prefix ∧
      c.Tenant.PrefixPreferSource = m.Tenant.PrefixPreferSource ∧
      c.Tenant.LabelRemove = m.Tenant.LabelRemove ∧
      c.Tenant.Default = m.Tenant.Default ∧
      c.Tenant.AcceptAll = m.Tenant.AcceptAll) ∧
    (m.Tenant.LabelList ≠ [] → c.Tenant.LabelList = m.Tenant.LabelList) := by
  obtain ⟨-, rfl⟩ := configLoad_ok hm hc
  refine ⟨⟨rfl, rfl, rfl, rfl, rfl, rfl, rfl, rfl, rfl, rfl, rfl, rfl, rfl, rfl, rfl, rfl, rfl⟩, ?_⟩
  intro hl
  have hlen : ¬ m.Tenant.LabelList.length = 0 := fun h => hl (List.length_eq_zero.mp h)
  simp only [withDefaults, hlen, if_false]

/-- Witness of C18: `CT_TENANT_LABEL=team` with `CT_TENANT_LABEL_LIST=org,unit`
keeps the list, which does not contain the label. -/
theorem undefaulted_fields_unchanged_witness :
    configMerge (envWorld labelListConfig []) "" = .ok labelListConfig ∧
    configLoad (envWorld labelListConfig []) "" = .ok (withDefaults labelListConfig) ∧
    (withDefaults labelListConfig).Tenant.Label = "team" ∧
    (withDefaults labelListConfig).ListenPprof = ":7008" ∧
    (withDefaults labelListConfig).Tenant.LabelList = ["org", "unit"] ∧
    (withDefaults labelListConfig).Tenant.LabelList = labelListConfig.Tenant.LabelList :=
  ⟨rfl, rfl, rfl, rfl, rfl,
    (undefaulted_fields_unchanged (envWorld labelListConfig []) "" labelListConfig
      (withDefaults labelListConfig) rfl rfl).2 (by decide)⟩
end CortexTenant
